import Mathlib

/-!
# montac: MONitoring of Temperatures And Clock speeds

A shallow embedding of `monitorTempsAndClock.c` and theorems about it.

* C strings (`char *`) are `Option String`: `none` is the NULL pointer. A C string holds
  no NUL character, so `name[0] == 0` is `name = ""`.
* Library calls that touch the outside world (`printf`, `pthread_create`, `system`, ...)
  are recorded, in program order, in a trace of actions. What the outside world answers
  (the status returned by `system`, whether `fopen` succeeds) is a parameter.
* Passing NULL to `strlen` or `atoi` is undefined behaviour; the embedding stops there
  with the outcome `Outcome.undefined`.
* `getopt` is the C library's (glibc, `POSIXLY_CORRECT` unset, `opterr = 0`): it is
  embedded from its documented behaviour.
-/

namespace Montac

/-! ## Data model -/

/-- The C type `struct Args`. -/
structure Args where
  saveFilename : Option String
  logFreq_us : Int
  verb : Int
  deriving DecidableEq, Repr

/-- The two thread start routines of the program. -/
inductive ThreadFn where
  | logTemperatures
  | logClockSpeeds
  deriving DecidableEq, Repr

/-- The two `pthread_t` variables of `main`. -/
inductive ThreadId where
  | idTemps
  | idClock
  deriving DecidableEq, Repr

/-- Library calls made by the main thread, as they appear in a trace.
`printf fmt arg` keeps the format string and the string argument apart.
`pthread_join` belongs to the vocabulary of thread lifecycle calls; `main` has no call
to it. -/
inductive Action where
  | printf (fmt : String) (arg : Option String)
  | fprintf_stderr (fmt : String) (optopt : Char)
  | showUsage (name : String)
  | pthread_create (id : ThreadId) (start : ThreadFn) (arg : Args)
  | system (cmd : Option String)
  | pthread_cancel (id : ThreadId)
  | pthread_join (id : ThreadId)
  deriving DecidableEq, Repr

/-- How the process ends: `exit code` for `exit(code)` and `return code` from `main`,
`abort` for `abort()`, `undefined` for a NULL pointer handed to `strlen` or `atoi`. -/
inductive Outcome where
  | exit (code : Nat)
  | abort
  | undefined
  deriving DecidableEq, Repr

def EXIT_SUCCESS : Nat := 0

def EXIT_FAILURE : Nat := 1

/-- C `strlen`: the number of bytes before the terminating NUL. -/
def strlen (s : String) : Nat := s.utf8ByteSize

/-! ## getopt -/

/-- C `strchr` on the characters of a string: the suffix starting at the first `c`. -/
def strchr (c : Char) : List Char → Option (List Char)
  | [] => none
  | x :: xs => if x = c then some (x :: xs) else strchr c xs

/-- One value returned by `getopt`: an option character of the option string together
with `optarg` (NULL for an option that takes no argument), or the character `?` with
`optopt` set (unknown option character, or missing argument). -/
inductive GetoptRet where
  | opt (c : Char) (optarg : Option String)
  | err (optopt : Char)
  deriving DecidableEq, Repr

/-- The values `getopt` returns while it scans the option characters `cs` of one argv
element (what follows its leading `-`); `next` is the argv element after it, if any.
The boolean tells whether `next` was taken as the argument of the last option. -/
def getoptCluster (optstring : List Char) (next : Option String) :
    List Char → List GetoptRet × Bool
  | [] => ([], false)
  | c :: cs =>
    match strchr c optstring with
    | none =>
      let r := getoptCluster optstring next cs
      (GetoptRet.err c :: r.1, r.2)
    | some temp =>
      if c = ':' ∨ c = ';' then
        let r := getoptCluster optstring next cs
        (GetoptRet.err c :: r.1, r.2)
      else if temp.tail.head? = some ':' then
        if temp.tail.tail.head? = some ':' then
          -- optional argument: only what is attached to the option
          ([GetoptRet.opt c (if cs = [] then none else some (String.mk cs))], false)
        else if cs ≠ [] then
          ([GetoptRet.opt c (some (String.mk cs))], false)
        else
          match next with
          | none => ([GetoptRet.err c], false)
          | some a => ([GetoptRet.opt c (some a)], true)
      else
        let r := getoptCluster optstring next cs
        (GetoptRet.opt c none :: r.1, r.2)

/-- All values `getopt` returns before `-1` on the argv elements after `argv[0]`, and the
elements left at `argv[optind..argc)` when it returns `-1` (glibc moves the non-option
elements there, in order; a `--` element ends the options). The boolean is true when the
head element has already been taken as an option's argument. -/
def getoptWords (optstring : List Char) : Bool → List String → List GetoptRet × List String
  | _, [] => ([], [])
  | true, _ :: rest => getoptWords optstring false rest
  | false, w :: rest =>
    if w = "--" then ([], rest)
    else
      match w.data with
      | '-' :: c :: cs =>
        let r := getoptCluster optstring rest.head? (c :: cs)
        let t := getoptWords optstring r.2 rest
        (r.1 ++ t.1, t.2)
      | _ =>
        let t := getoptWords optstring false rest
        (t.1, w :: t.2)

/-- The option string of `main`. -/
def optstring : List Char := "c:o:fv".data

/-- The `getopt` calls of `main` on `argv[1..argc)`. -/
def getopt (argv : List String) : List GetoptRet × List String :=
  getoptWords optstring false argv

/-! ## atoi, isprint -/

def isspace (c : Char) : Bool :=
  c = ' ' ∨ c = '\t' ∨ c = '\n' ∨ c = '\x0b' ∨ c = '\x0c' ∨ c = '\r'

def isdigit (c : Char) : Bool := '0' ≤ c ∧ c ≤ '9'

def isprint (c : Char) : Bool := ' ' ≤ c ∧ c ≤ '~'

/-- The decimal value of the leading digits, continuing from `acc`. -/
def atoiDigits : List Char → Nat → Nat
  | [], acc => acc
  | c :: cs, acc => if isdigit c then atoiDigits cs (10 * acc + (c.toNat - '0'.toNat)) else acc

def atoiSigned : List Char → Int
  | '-' :: cs => - (atoiDigits cs 0 : Int)
  | '+' :: cs => (atoiDigits cs 0 : Int)
  | cs => (atoiDigits cs 0 : Int)

/-- C `atoi` on a non-NULL string whose value fits an `int`. -/
def atoi (s : String) : Int := atoiSigned (s.data.dropWhile isspace)

/-! ## main -/

/-- Where the option loop of `main` leaves the program: stopped (an `exit`, a `return`,
or undefined behaviour), or past the loop with the values of `cmdStr` and `args`. -/
inductive LoopResult where
  | stop (trace : List Action) (out : Outcome)
  | past (cmdStr : Option String) (args : Args) (trace : List Action)
  deriving DecidableEq, Repr

/-- The `while ((c = getopt (...)) != -1) switch (c)` loop of `main`, run over the values
that `getopt` returns. -/
def optLoop (name : String) :
    List GetoptRet → Option String → Args → List Action → LoopResult
  | [], cmdStr, args, tr => LoopResult.past cmdStr args tr
  | GetoptRet.opt c optarg :: rets, cmdStr, args, tr =>
    if c = 'c' then optLoop name rets optarg args tr
    else if c = 'o' then
      optLoop name rets cmdStr
        { saveFilename := optarg, logFreq_us := args.logFreq_us, verb := args.verb } tr
    else if c = 'f' then
      match optarg with
      | none => LoopResult.stop tr Outcome.undefined
      | some s =>
        if atoi s < 1 then
          LoopResult.stop
            (tr ++ [Action.printf "bad logFrequency supplied\n" none, Action.showUsage name])
            (Outcome.exit EXIT_FAILURE)
        else
          optLoop name rets cmdStr
            { saveFilename := args.saveFilename, logFreq_us := atoi s, verb := args.verb } tr
    else if c = 'v' then
      match optarg with
      | none => LoopResult.stop tr Outcome.undefined
      | some s =>
        if atoi s < 0 then
          LoopResult.stop
            (tr ++ [Action.printf "bad verbosity supplied\n" none, Action.showUsage name])
            (Outcome.exit EXIT_FAILURE)
        else
          optLoop name rets cmdStr
            { saveFilename := args.saveFilename, logFreq_us := args.logFreq_us,
              verb := atoi s } tr
    else LoopResult.stop tr Outcome.abort
  | GetoptRet.err optopt :: _, _, _, tr =>
    if optopt = 'c' ∨ optopt = 'o' ∨ optopt = 'f' ∨ optopt = 'v' then
      LoopResult.stop
        (tr ++ [Action.fprintf_stderr "Option -%c requires an argument.\n" optopt])
        (Outcome.exit 1)
    else if isprint optopt then
      LoopResult.stop
        (tr ++ [Action.fprintf_stderr "Unknown option \x60-%c\x27.\n" optopt])
        (Outcome.exit 1)
    else
      LoopResult.stop
        (tr ++ [Action.fprintf_stderr "Unknown option character \x60\\x%x\x27.\n" optopt])
        (Outcome.exit 1)

/-- The initial value of `args` in `main`. -/
def defaultArgs : Args := { saveFilename := none, logFreq_us := 500000, verb := 1 }

/-- The local buffer `saveFilenameTemps` after `strcpy` and `strcat`. -/
def saveFilenameTemps (saveFilename : String) : String := saveFilename ++ ".temps"

/-- The local buffer `saveFilenameClock` after `strcpy` and `strcat`. -/
def saveFilenameClock (saveFilename : String) : String := saveFilename ++ ".clock"

/-- The statements of `main` from the first `pthread_create` to the last
`pthread_cancel`; `sys` is the status that `system` returns. Both threads are handed
`&args`. -/
def supervise (sys : Option String → Int) (cmdStr : Option String) (args : Args) :
    List Action :=
  [Action.pthread_create ThreadId.idTemps ThreadFn.logTemperatures args,
   Action.pthread_create ThreadId.idClock ThreadFn.logClockSpeeds args]
  ++ (if args.verb > 0 then [Action.printf "running cmd: %s\n" cmdStr] else [])
  ++ [Action.system cmdStr]
  ++ (if sys cmdStr ≠ 0 then [Action.printf "failed to run cmd: %s\n" cmdStr] else [])
  ++ [Action.pthread_cancel ThreadId.idTemps, Action.pthread_cancel ThreadId.idClock]

/-- The part of `main` after the option loop. -/
def afterLoop (sys : Option String → Int) (name : String) (nonOptions : List String)
    (cmdStr : Option String) (args : Args) (tr : List Action) : List Action × Outcome :=
  if nonOptions ≠ [] then
    (tr ++ nonOptions.map (fun a => Action.printf "Non-option argument %s\n" (some a))
        ++ [Action.showUsage name],
      Outcome.exit EXIT_FAILURE)
  else
    match args.saveFilename with
    | none => (tr, Outcome.undefined)
    | some saveFilename =>
      if strlen saveFilename > 50 then
        (tr ++ [Action.printf "saveFilename too long: 50 character limit\n" none],
          Outcome.exit EXIT_FAILURE)
      else
        (tr ++ supervise sys cmdStr args, Outcome.exit EXIT_SUCCESS)

/-- The function `main`, on `argv[0] = name` and `argv[1..argc) = argv`: the trace of its
library calls and how the process ends. -/
def main (sys : Option String → Int) (name : String) (argv : List String) :
    List Action × Outcome :=
  if argv = [] then ([Action.showUsage name], Outcome.exit EXIT_FAILURE)
  else
    match optLoop name (getopt argv).1 none defaultArgs [] with
    | LoopResult.stop tr out => (tr, out)
    | LoopResult.past cmdStr args tr => afterLoop sys name (getopt argv).2 cmdStr args tr

/-! ## The collectors -/

/-- Library calls made by a collector thread. `printf fmt name` keeps the format string
and the string argument (the period printed through `%f` is left out); `fopen` records
whether the stream returned is non-NULL; `system` records the status returned. -/
inductive ThreadAction where
  | printf (fmt : String) (name : Option String)
  | fopen (name : String) (mode : String) (ok : Bool)
  | malloc (size : Nat)
  | system (cmd : String) (status : Int)
  | usleep (usec : Int)
  | fclose
  deriving DecidableEq, Repr

/-- What the host answers to a collector: whether `fopen (name, "w")` returns a stream,
and the status returned by the `i`-th call of `system` (from 0). -/
structure Host where
  fopen : String → Bool
  system : Nat → Int

/-- The fixed text copied into `logStr` by `logClockSpeeds`. -/
def clockLogStr : String :=
  "cat /proc/cpuinfo | grep \"^[c]pu MHz\" | awk \x27\x7bprint($4)\x7d\x27 | paste -sd \" \" >> "

/-- The fixed text copied into `logStr` by `logTemperatures`. -/
def tempsLogStr : String :=
  "sensors | awk \x27\x7b if($1==\"Core\") print substr($3,0,length($3)-3) \x7d\x27 | awk \x27\x7bgsub(/\\+/,\"\")\x7d1\x27 | paste -sd \" \" >> "

/-- The loop `while (maxLogs--) { system(logStr); usleep(args->logFreq_us); }` entered
with a non-negative `maxLogs`; `i` counts the calls of `system` made so far. -/
def sampleLoop (logStr : String) (usec : Int) (status : Nat → Int) :
    Nat → Nat → List ThreadAction
  | 0, _ => []
  | maxLogs + 1, i =>
    ThreadAction.system logStr (status i) :: ThreadAction.usleep usec ::
      sampleLoop logStr usec status maxLogs (i + 1)

/-- The common body of the two collectors, which differ in the text they print, in the
size of the buffer `logStr` and in the command copied into it. The result is the trace
of the thread when no cancellation request is acted on, and the value of `status` at
`pthread_exit`. -/
def collector (greeting : String) (bufSize : Nat) (pipeline : String) (host : Host)
    (args : Args) : List ThreadAction × Int :=
  let hello := if args.verb ≠ 0 then [ThreadAction.printf greeting args.saveFilename] else []
  match args.saveFilename with
  | none => (hello ++ [ThreadAction.printf "failed to open file: %s\n" none], 0)
  | some name =>
    if name = "" then
      (hello ++ [ThreadAction.printf "failed to open file: %s\n" (some name)], 0)
    else if host.fopen name = false then
      (hello ++ [ThreadAction.fopen name "w" false,
                 ThreadAction.printf "failed to open file: %s\n" (some name)], 0)
    else
      (hello ++ [ThreadAction.fopen name "w" true, ThreadAction.malloc bufSize]
        ++ sampleLoop (pipeline ++ name) args.logFreq_us host.system 100000 0
        ++ (if args.verb ≠ 0 then
              [ThreadAction.printf "reached maximum number of logs in %s\n" (some name)]
            else [])
        ++ [ThreadAction.fclose], 1)

/-- The thread function `logClockSpeeds`. -/
def logClockSpeeds (host : Host) (args : Args) : List ThreadAction × Int :=
  collector "saving clock speeds (MHz) every %f s to file... %s\n" 150 clockLogStr host args

/-- The thread function `logTemperatures`. -/
def logTemperatures (host : Host) (args : Args) : List ThreadAction × Int :=
  collector "saving temps (degrees C) every %f s to file... %s\n" 200 tempsLogStr host args

/-- The calls of `system` in a collector's trace: its sample attempts. -/
def sampleAttempts (tr : List ThreadAction) : List ThreadAction :=
  tr.filter (fun a => match a with
    | ThreadAction.system _ _ => true
    | _ => false)

/-! ## Reading traces -/

/-- The calls of `main` that only print: they start, run and stop nothing. -/
def Action.quiet : Action → Bool
  | Action.printf _ _ => true
  | Action.fprintf_stderr _ _ => true
  | Action.showUsage _ => true
  | _ => false

/-- The calls of a collector that can create a file: `fopen (name, "w")`, and `system`,
whose command appends to the sink through `>> name`. -/
def ThreadAction.createsFile : ThreadAction → Bool
  | ThreadAction.fopen _ _ _ => true
  | ThreadAction.system _ _ => true
  | _ => false

/-! ## Lemmas -/

theorem strlen_append (a b : String) : strlen (a ++ b) = strlen a + strlen b := by
  show String.utf8Len (a ++ b).data = String.utf8Len a.data + String.utf8Len b.data
  rw [String.data_append, String.utf8Len_append]

theorem strlen_clockLogStr : strlen clockLogStr = 77 := by decide

theorem strlen_tempsLogStr : strlen tempsLogStr = 111 := by decide

/-- The option loop adds nothing to the trace when it runs to its end. -/
theorem optLoop_past (name : String) (rets : List GetoptRet) :
    ∀ (cmdStr : Option String) (args : Args) (tr : List Action)
      (cmdStr1 : Option String) (args1 : Args) (tr1 : List Action),
      optLoop name rets cmdStr args tr = LoopResult.past cmdStr1 args1 tr1 → tr1 = tr := by
  induction rets with
  | nil =>
    intro cmdStr args tr cmdStr1 args1 tr1 h
    simp only [optLoop, LoopResult.past.injEq] at h
    exact h.2.2.symm
  | cons r rets ih =>
    intro cmdStr args tr cmdStr1 args1 tr1 h
    cases r with
    | opt c optarg =>
      unfold optLoop at h
      split_ifs at h
      · exact ih _ _ _ _ _ _ h
      · exact ih _ _ _ _ _ _ h
      · cases optarg with
        | none => simp at h
        | some s =>
          simp only at h
          split_ifs at h
          exact ih _ _ _ _ _ _ h
      · cases optarg with
        | none => simp at h
        | some s =>
          simp only at h
          split_ifs at h
          exact ih _ _ _ _ _ _ h
    | err optopt =>
      unfold optLoop at h
      split_ifs at h

/-- When the option loop stops the program, it has only printed, and the program does
not end with `exit(EXIT_SUCCESS)`. -/
theorem optLoop_stop (name : String) (rets : List GetoptRet) :
    ∀ (cmdStr : Option String) (args : Args) (tr1 : List Action) (out : Outcome),
      optLoop name rets cmdStr args [] = LoopResult.stop tr1 out →
        (∀ x ∈ tr1, x.quiet = true) ∧ out ≠ Outcome.exit EXIT_SUCCESS := by
  induction rets with
  | nil =>
    intro cmdStr args tr1 out h
    simp [optLoop] at h
  | cons r rets ih =>
    intro cmdStr args tr1 out h
    cases r with
    | opt c optarg =>
      unfold optLoop at h
      split_ifs at h
      · exact ih _ _ _ _ h
      · exact ih _ _ _ _ h
      · cases optarg with
        | none =>
          simp only [LoopResult.stop.injEq] at h
          obtain ⟨rfl, rfl⟩ := h
          simp
        | some s =>
          simp only at h
          split_ifs at h
          · simp only [LoopResult.stop.injEq] at h
            obtain ⟨rfl, rfl⟩ := h
            simp [Action.quiet, EXIT_FAILURE, EXIT_SUCCESS]
          · exact ih _ _ _ _ h
      · cases optarg with
        | none =>
          simp only [LoopResult.stop.injEq] at h
          obtain ⟨rfl, rfl⟩ := h
          simp
        | some s =>
          simp only at h
          split_ifs at h
          · simp only [LoopResult.stop.injEq] at h
            obtain ⟨rfl, rfl⟩ := h
            simp [Action.quiet, EXIT_FAILURE, EXIT_SUCCESS]
          · exact ih _ _ _ _ h
      · simp only [LoopResult.stop.injEq] at h
        obtain ⟨rfl, rfl⟩ := h
        simp
    | err optopt =>
      unfold optLoop at h
      split_ifs at h <;>
      · simp only [LoopResult.stop.injEq] at h
        obtain ⟨rfl, rfl⟩ := h
        simp [Action.quiet, EXIT_SUCCESS]

/-- The two ways a run of `main` goes: it is rejected, having only printed, and does not
end with `exit(EXIT_SUCCESS)`; or the output prefix has at most 50 bytes, the trace is
that of `supervise`, and the run ends with `exit(EXIT_SUCCESS)`. -/
theorem main_cases (sys : Option String → Int) (name : String) (argv : List String) :
    ((∀ x ∈ (main sys name argv).1, x.quiet = true) ∧
        (main sys name argv).2 ≠ Outcome.exit EXIT_SUCCESS) ∨
    (∃ cmdStr args p, args.saveFilename = some p ∧ strlen p ≤ 50 ∧
        main sys name argv = (supervise sys cmdStr args, Outcome.exit EXIT_SUCCESS)) := by
  unfold main
  split_ifs with hargv
  · left
    simp [Action.quiet, EXIT_FAILURE, EXIT_SUCCESS]
  · cases hloop : optLoop name (getopt argv).1 none defaultArgs [] with
    | stop tr out =>
      left
      exact optLoop_stop name _ _ _ _ _ hloop
    | past cmdStr args tr =>
      have htr : tr = [] := optLoop_past name _ _ _ _ _ _ _ hloop
      subst htr
      simp only [afterLoop]
      split_ifs with hno
      · left
        refine ⟨?_, by simp [EXIT_FAILURE, EXIT_SUCCESS]⟩
        intro x hx
        simp only [List.nil_append, List.mem_append, List.mem_map, List.mem_singleton] at hx
        rcases hx with ⟨a, _, rfl⟩ | rfl <;> rfl
      · cases hsf : args.saveFilename with
        | none =>
          left
          simp
        | some p =>
          simp only
          split_ifs with hlen
          · left
            simp [Action.quiet, EXIT_FAILURE, EXIT_SUCCESS]
          · right
            exact ⟨cmdStr, args, p, hsf, by omega, by simp⟩

/-- In a list with exactly one element satisfying `P`, the place of that element is
determined. -/
theorem split_unique {α : Type} (P : α → Prop) (x y : α) (B post : List α)
    (hB : ∀ b ∈ B, ¬ P b) (hx : P x) :
    ∀ (A pre : List α), (∀ a ∈ A, ¬ P a) → pre ++ x :: post = A ++ y :: B →
      pre = A ∧ x = y ∧ post = B := by
  intro A
  induction A with
  | nil =>
    intro pre _ h
    cases pre with
    | nil =>
      simp only [List.nil_append, List.cons.injEq] at h
      exact ⟨rfl, h.1, h.2⟩
    | cons z pre1 =>
      simp only [List.cons_append, List.nil_append, List.cons.injEq] at h
      exact absurd hx (hB x (by rw [← h.2]; simp))
  | cons a A ih =>
    intro pre hA h
    cases pre with
    | nil =>
      simp only [List.nil_append, List.cons_append, List.cons.injEq] at h
      exact absurd hx (by rw [h.1]; exact hA a (by simp))
    | cons z pre1 =>
      simp only [List.cons_append, List.cons.injEq] at h
      obtain ⟨h1, h2, h3⟩ := ih pre1 (fun b hb => hA b (by simp [hb])) h.2
      exact ⟨by rw [h.1, h1], h2, h3⟩

/-- The trace of `supervise`, cut at the call of `system`. -/
theorem supervise_split (sys : Option String → Int) (cmdStr : Option String) (args : Args) :
    supervise sys cmdStr args =
      ([Action.pthread_create ThreadId.idTemps ThreadFn.logTemperatures args,
        Action.pthread_create ThreadId.idClock ThreadFn.logClockSpeeds args]
        ++ (if args.verb > 0 then [Action.printf "running cmd: %s\n" cmdStr] else []))
      ++ Action.system cmdStr ::
        ((if sys cmdStr ≠ 0 then [Action.printf "failed to run cmd: %s\n" cmdStr] else [])
          ++ [Action.pthread_cancel ThreadId.idTemps, Action.pthread_cancel ThreadId.idClock]) := by
  simp [supervise]

/-- On `-c CMD -o PREFIX` the option loop ends with `cmdStr = CMD`, the prefix stored in
`args`, and the default period and verbosity. -/
theorem main_c_o (sys : Option String → Int) (name cmd p : String) :
    main sys name ["-c", cmd, "-o", p] =
      afterLoop sys name [] (some cmd)
        { saveFilename := some p, logFreq_us := 500000, verb := 1 } [] := by
  rfl

/-- A collector started with the empty sink name leaves with status 0 before `fopen`
and before any call of `system`: it creates no file. -/
theorem collector_empty_name (greeting : String) (bufSize : Nat) (pipeline : String)
    (host : Host) (args : Args) (h : args.saveFilename = some "") :
    (collector greeting bufSize pipeline host args).2 = 0 ∧
    ∀ x ∈ (collector greeting bufSize pipeline host args).1, x.createsFile = false := by
  unfold collector
  simp only [h, if_true]
  refine ⟨trivial, ?_⟩
  intro x hx
  split_ifs at hx <;> simp at hx
  · rcases hx with rfl | rfl <;> rfl
  · subst hx
    rfl

/-! ## The claims -/

/-- C1 (the code departs from the claim): on `montac -c true -o data` both collectors are
started with `&args`, whose `saveFilename` is the bare prefix `data`. The names
`data.temps` and `data.clock` are built in `saveFilenameTemps` and `saveFilenameClock`
and handed to no collector: every collector started has the sink path `data`. -/
theorem C1_collectors_share_bare_name (sys : Option String → Int) :
    Action.pthread_create ThreadId.idTemps ThreadFn.logTemperatures
        { saveFilename := some "data", logFreq_us := 500000, verb := 1 }
      ∈ (main sys "montac" ["-c", "true", "-o", "data"]).1 ∧
    Action.pthread_create ThreadId.idClock ThreadFn.logClockSpeeds
        { saveFilename := some "data", logFreq_us := 500000, verb := 1 }
      ∈ (main sys "montac" ["-c", "true", "-o", "data"]).1 ∧
    (∀ id fn a, Action.pthread_create id fn a ∈ (main sys "montac" ["-c", "true", "-o", "data"]).1 →
      a.saveFilename = some "data") ∧
    saveFilenameTemps "data" = "data.temps" ∧ saveFilenameClock "data" = "data.clock" := by
  have h : main sys "montac" ["-c", "true", "-o", "data"] =
      (supervise sys (some "true") { saveFilename := some "data", logFreq_us := 500000, verb := 1 },
        Outcome.exit EXIT_SUCCESS) := rfl
  rw [h]
  refine ⟨by simp [supervise], by simp [supervise], ?_, by decide, by decide⟩
  intro id fn a ha
  simp only [supervise] at ha
  split_ifs at ha <;> simp at ha <;> rcases ha with ⟨_, _, rfl⟩ | ⟨_, _, rfl⟩ <;> rfl

/-- C2 (the claim fails): the workload `false` is run, `system` returns the non-zero
status 256, and the process ends with `exit(0)`. -/
theorem C2_counterexample :
    Action.system (some "false")
      ∈ (main (fun _ => 256) "montac" ["-c", "false", "-o", "data"]).1 ∧
    (fun _ => (256 : Int)) (some "false") ≠ 0 ∧
    (main (fun _ => 256) "montac" ["-c", "false", "-o", "data"]).2 = Outcome.exit 0 := by
  decide

/-- C2 (amended): in every run of `main` that reaches the workload (a call of `system`),
the process ends with `exit(EXIT_SUCCESS)`, whatever status `system` returns; a non-zero
status is reported by the message `failed to run cmd`. -/
theorem C2_exit_success_after_workload (sys : Option String → Int) (name : String)
    (argv : List String) (cmd : Option String)
    (h : Action.system cmd ∈ (main sys name argv).1) :
    (main sys name argv).2 = Outcome.exit EXIT_SUCCESS ∧
    (sys cmd ≠ 0 → Action.printf "failed to run cmd: %s\n" cmd ∈ (main sys name argv).1) := by
  rcases main_cases sys name argv with ⟨hq, _⟩ | ⟨cmdStr, args, p, _, _, hm⟩
  · exact absurd (hq _ h) (by simp [Action.quiet])
  · rw [hm] at h ⊢
    have hc : cmd = cmdStr := by
      simp only [supervise] at h
      split_ifs at h <;> simp at h <;> exact h
    subst hc
    refine ⟨rfl, ?_⟩
    intro hs
    simp [supervise, hs]

/-- The run `montac -c false -o data` in which `system` returns 256 reaches the workload
and ends with `exit(EXIT_SUCCESS)` after the message. -/
theorem C2_exit_success_after_workload_witness :
    Action.system (some "false")
      ∈ (main (fun _ => 256) "montac" ["-c", "false", "-o", "data"]).1 ∧
    ((main (fun _ => 256) "montac" ["-c", "false", "-o", "data"]).2
        = Outcome.exit EXIT_SUCCESS ∧
      ((fun _ => (256 : Int)) (some "false") ≠ 0 →
        Action.printf "failed to run cmd: %s\n" (some "false")
          ∈ (main (fun _ => 256) "montac" ["-c", "false", "-o", "data"]).1)) :=
  ⟨by decide,
    C2_exit_success_after_workload (fun _ => 256) "montac" ["-c", "false", "-o", "data"]
      (some "false") (by decide)⟩

/-- C3 (the claim fails): on `montac -c true -o ""` both collectors are started, the
workload is launched, and the process ends with `exit(0)`. -/
theorem C3_counterexample :
    Action.pthread_create ThreadId.idTemps ThreadFn.logTemperatures
        { saveFilename := some "", logFreq_us := 500000, verb := 1 }
      ∈ (main (fun _ => 0) "montac" ["-c", "true", "-o", ""]).1 ∧
    Action.pthread_create ThreadId.idClock ThreadFn.logClockSpeeds
        { saveFilename := some "", logFreq_us := 500000, verb := 1 }
      ∈ (main (fun _ => 0) "montac" ["-c", "true", "-o", ""]).1 ∧
    Action.system (some "true") ∈ (main (fun _ => 0) "montac" ["-c", "true", "-o", ""]).1 ∧
    (main (fun _ => 0) "montac" ["-c", "true", "-o", ""]).2 = Outcome.exit 0 := by
  decide

/-- C3 (amended): for every argument vector on which the option loop runs to its end
with the empty string as output prefix and no non-option argument left (such as
`-c CMD -o ""`), the run is not rejected: both collectors are started, then the workload
command is launched, and the process ends with `exit(EXIT_SUCCESS)`. No file is created:
every collector that `main` starts is handed the empty sink name, and on any host either
thread function then leaves with status 0 without a call of `fopen` or of `system`. -/
theorem C3_empty_prefix_accepted (sys : Option String → Int) (name : String)
    (argv : List String) (cmdStr : Option String) (args : Args) (tr : List Action)
    (hloop : optLoop name (getopt argv).1 none defaultArgs [] = LoopResult.past cmdStr args tr)
    (hno : (getopt argv).2 = [])
    (hp : args.saveFilename = some "") :
    main sys name argv = (supervise sys cmdStr args, Outcome.exit EXIT_SUCCESS) ∧
    Action.pthread_create ThreadId.idTemps ThreadFn.logTemperatures args
      ∈ (main sys name argv).1 ∧
    Action.pthread_create ThreadId.idClock ThreadFn.logClockSpeeds args
      ∈ (main sys name argv).1 ∧
    Action.system cmdStr ∈ (main sys name argv).1 ∧
    (∀ id fn a, Action.pthread_create id fn a ∈ (main sys name argv).1 →
      a.saveFilename = some "" ∧
      ∀ host : Host,
        ((logTemperatures host a).2 = 0 ∧
          ∀ x ∈ (logTemperatures host a).1, x.createsFile = false) ∧
        ((logClockSpeeds host a).2 = 0 ∧
          ∀ x ∈ (logClockSpeeds host a).1, x.createsFile = false)) := by
  have htr : tr = [] := optLoop_past name _ _ _ _ _ _ _ hloop
  subst htr
  have hargv : argv ≠ [] := by
    rintro rfl
    have h0 : optLoop name (getopt []).1 none defaultArgs [] =
        LoopResult.past none defaultArgs [] := rfl
    rw [h0] at hloop
    simp only [LoopResult.past.injEq] at hloop
    rw [← hloop.2.1] at hp
    simp [defaultArgs] at hp
  have hm : main sys name argv = (supervise sys cmdStr args, Outcome.exit EXIT_SUCCESS) := by
    unfold main
    rw [if_neg hargv, hloop]
    simp only [afterLoop, hno, hp]
    have h0 : ¬ strlen "" > 50 := by decide
    simp [h0]
  refine ⟨hm, ?_, ?_, ?_, ?_⟩
  · rw [hm]; simp [supervise]
  · rw [hm]; simp [supervise]
  · rw [hm]; simp [supervise]
  · intro id fn a ha
    rw [hm] at ha
    have haa : a = args := by
      simp only [supervise] at ha
      split_ifs at ha <;> simp at ha <;> rcases ha with ⟨_, _, rfl⟩ | ⟨_, _, rfl⟩ <;> rfl
    subst haa
    refine ⟨hp, ?_⟩
    intro host
    exact ⟨collector_empty_name _ _ _ host a hp, collector_empty_name _ _ _ host a hp⟩

/-- The run `montac -c true -o ""` starts both collectors and launches `true`; each
collector is handed the empty name and creates no file. -/
theorem C3_empty_prefix_accepted_witness :
    main (fun _ => 0) "montac" ["-c", "true", "-o", ""] =
        (supervise (fun _ => 0) (some "true")
          { saveFilename := some "", logFreq_us := 500000, verb := 1 },
          Outcome.exit EXIT_SUCCESS) ∧
    Action.pthread_create ThreadId.idTemps ThreadFn.logTemperatures
        { saveFilename := some "", logFreq_us := 500000, verb := 1 }
      ∈ (main (fun _ => 0) "montac" ["-c", "true", "-o", ""]).1 ∧
    Action.pthread_create ThreadId.idClock ThreadFn.logClockSpeeds
        { saveFilename := some "", logFreq_us := 500000, verb := 1 }
      ∈ (main (fun _ => 0) "montac" ["-c", "true", "-o", ""]).1 ∧
    Action.system (some "true") ∈ (main (fun _ => 0) "montac" ["-c", "true", "-o", ""]).1 ∧
    (∀ id fn a, Action.pthread_create id fn a
        ∈ (main (fun _ => 0) "montac" ["-c", "true", "-o", ""]).1 →
      a.saveFilename = some "" ∧
      ∀ host : Host,
        ((logTemperatures host a).2 = 0 ∧
          ∀ x ∈ (logTemperatures host a).1, x.createsFile = false) ∧
        ((logClockSpeeds host a).2 = 0 ∧
          ∀ x ∈ (logClockSpeeds host a).1, x.createsFile = false)) :=
  C3_empty_prefix_accepted (fun _ => 0) "montac" ["-c", "true", "-o", ""] (some "true")
    { saveFilename := some "", logFreq_us := 500000, verb := 1 } [] (by rfl) (by rfl) (by rfl)

/-- C4 (the code departs from the claim): on `montac -o data`, which lacks `-c`, no usage
text is printed: both collectors are started, `system` is called with NULL, and the
process ends with `exit(EXIT_SUCCESS)`. On `montac -c cmd`, which lacks `-o`, no usage
text is printed either: `strlen` is called with NULL. -/
theorem C4_missing_option_not_rejected (sys : Option String → Int) :
    main sys "montac" ["-o", "data"] =
      (supervise sys none { saveFilename := some "data", logFreq_us := 500000, verb := 1 },
        Outcome.exit EXIT_SUCCESS) ∧
    Action.showUsage "montac" ∉ (main sys "montac" ["-o", "data"]).1 ∧
    Action.pthread_create ThreadId.idTemps ThreadFn.logTemperatures
        { saveFilename := some "data", logFreq_us := 500000, verb := 1 }
      ∈ (main sys "montac" ["-o", "data"]).1 ∧
    Action.pthread_create ThreadId.idClock ThreadFn.logClockSpeeds
        { saveFilename := some "data", logFreq_us := 500000, verb := 1 }
      ∈ (main sys "montac" ["-o", "data"]).1 ∧
    main sys "montac" ["-c", "cmd"] = ([], Outcome.undefined) := by
  have h : main sys "montac" ["-o", "data"] =
      (supervise sys none { saveFilename := some "data", logFreq_us := 500000, verb := 1 },
        Outcome.exit EXIT_SUCCESS) := rfl
  refine ⟨h, ?_, ?_, ?_, rfl⟩ <;> rw [h] <;> simp only [supervise]
  · split_ifs <;> simp
  · simp
  · simp

/-- C5 (the code departs from the claim): the option string `c:o:fv` gives `-f` no
argument, so on `-c CMD -o PREFIX -f USEC` the call of `getopt` that returns `f` leaves
`optarg` NULL and `atoi` is called with NULL: no collector is started, with any period.
Without `-f` the collectors are started with the default period 500000. -/
theorem C5_f_takes_no_argument (sys : Option String → Int) (name cmd p usec : String) :
    GetoptRet.opt 'f' none ∈ (getopt ["-c", cmd, "-o", p, "-f", usec]).1 ∧
    main sys name ["-c", cmd, "-o", p, "-f", usec] = ([], Outcome.undefined) ∧
    (∀ id fn a, Action.pthread_create id fn a ∈ (main sys name ["-c", cmd, "-o", p]).1 →
      a.logFreq_us = 500000) := by
  refine ⟨?_, rfl, ?_⟩
  · have h : (getopt ["-c", cmd, "-o", p, "-f", usec]).1 =
        GetoptRet.opt 'c' (some cmd) :: GetoptRet.opt 'o' (some p) :: GetoptRet.opt 'f' none ::
          (getoptWords optstring false [usec]).1 := rfl
    rw [h]
    simp
  · intro id fn a ha
    rw [main_c_o] at ha
    simp only [afterLoop] at ha
    split_ifs at ha
    · simp at ha
    · simp at ha
    · simp only [supervise] at ha
      split_ifs at ha <;> simp at ha <;> rcases ha with ⟨_, _, rfl⟩ | ⟨_, _, rfl⟩ <;> rfl

/-- C6: in every run of `main` that reaches the workload, that is whose trace is
`pre ++ system cmd :: post`, both collectors are started in `pre` and none is cancelled
there, while `post` holds the cancellation of each collector, starts no collector and
runs no further command; this for every status `sys` that the workload returns. -/
theorem C6_start_workload_cancel_order (sys : Option String → Int) (name : String)
    (argv : List String) (pre post : List Action) (cmd : Option String)
    (h : (main sys name argv).1 = pre ++ Action.system cmd :: post) :
    (∃ a, Action.pthread_create ThreadId.idTemps ThreadFn.logTemperatures a ∈ pre) ∧
    (∃ a, Action.pthread_create ThreadId.idClock ThreadFn.logClockSpeeds a ∈ pre) ∧
    (∀ id, Action.pthread_cancel id ∉ pre) ∧
    Action.pthread_cancel ThreadId.idTemps ∈ post ∧
    Action.pthread_cancel ThreadId.idClock ∈ post ∧
    (∀ id fn a, Action.pthread_create id fn a ∉ post) ∧
    (∀ c, Action.system c ∉ post) := by
  rcases main_cases sys name argv with ⟨hq, _⟩ | ⟨cmdStr, args, p, _, _, hm⟩
  · have hmem : Action.system cmd ∈ (main sys name argv).1 := by rw [h]; simp
    exact absurd (hq _ hmem) (by simp [Action.quiet])
  · rw [hm] at h
    simp only at h
    rw [supervise_split] at h
    have hB : ∀ b ∈ (if sys cmdStr ≠ 0 then [Action.printf "failed to run cmd: %s\n" cmdStr]
          else []) ++ [Action.pthread_cancel ThreadId.idTemps,
            Action.pthread_cancel ThreadId.idClock], ¬ (∃ c, b = Action.system c) := by
      intro b hb
      split_ifs at hb <;> simp at hb <;> rcases hb with rfl | rfl | rfl <;> simp
    have hA : ∀ a ∈ [Action.pthread_create ThreadId.idTemps ThreadFn.logTemperatures args,
          Action.pthread_create ThreadId.idClock ThreadFn.logClockSpeeds args]
          ++ (if args.verb > 0 then [Action.printf "running cmd: %s\n" cmdStr] else []),
        ¬ (∃ c, a = Action.system c) := by
      intro a ha
      split_ifs at ha <;> simp at ha <;> rcases ha with rfl | rfl | rfl <;> simp
    obtain ⟨hpre, _, hpost⟩ :=
      split_unique (fun a => ∃ c, a = Action.system c) (Action.system cmd)
        (Action.system cmdStr) _ post hB ⟨cmd, rfl⟩ _ pre hA h.symm
    subst hpre
    subst hpost
    refine ⟨⟨args, by simp⟩, ⟨args, by simp⟩, ?_, by simp, by simp, ?_, ?_⟩
    · intro id
      split_ifs <;> simp
    · intro id fn a
      split_ifs <;> simp
    · intro c
      split_ifs <;> simp

/-- The run `montac -c false -o data` in which `system` returns 256, cut at the call of
`system`. -/
theorem C6_start_workload_cancel_order_witness :
    (main (fun _ => 256) "montac" ["-c", "false", "-o", "data"]).1 =
      [Action.pthread_create ThreadId.idTemps ThreadFn.logTemperatures
          { saveFilename := some "data", logFreq_us := 500000, verb := 1 },
        Action.pthread_create ThreadId.idClock ThreadFn.logClockSpeeds
          { saveFilename := some "data", logFreq_us := 500000, verb := 1 },
        Action.printf "running cmd: %s\n" (some "false")]
      ++ Action.system (some "false") ::
      [Action.printf "failed to run cmd: %s\n" (some "false"),
        Action.pthread_cancel ThreadId.idTemps, Action.pthread_cancel ThreadId.idClock] ∧
    ((∃ a, Action.pthread_create ThreadId.idTemps ThreadFn.logTemperatures a
      ∈ [Action.pthread_create ThreadId.idTemps ThreadFn.logTemperatures
          { saveFilename := some "data", logFreq_us := 500000, verb := 1 },
        Action.pthread_create ThreadId.idClock ThreadFn.logClockSpeeds
          { saveFilename := some "data", logFreq_us := 500000, verb := 1 },
        Action.printf "running cmd: %s\n" (some "false")]) ∧
    (∃ a, Action.pthread_create ThreadId.idClock ThreadFn.logClockSpeeds a
      ∈ [Action.pthread_create ThreadId.idTemps ThreadFn.logTemperatures
          { saveFilename := some "data", logFreq_us := 500000, verb := 1 },
        Action.pthread_create ThreadId.idClock ThreadFn.logClockSpeeds
          { saveFilename := some "data", logFreq_us := 500000, verb := 1 },
        Action.printf "running cmd: %s\n" (some "false")]) ∧
    (∀ id, Action.pthread_cancel id
      ∉ [Action.pthread_create ThreadId.idTemps ThreadFn.logTemperatures
          { saveFilename := some "data", logFreq_us := 500000, verb := 1 },
        Action.pthread_create ThreadId.idClock ThreadFn.logClockSpeeds
          { saveFilename := some "data", logFreq_us := 500000, verb := 1 },
        Action.printf "running cmd: %s\n" (some "false")]) ∧
    Action.pthread_cancel ThreadId.idTemps
      ∈ [Action.printf "failed to run cmd: %s\n" (some "false"),
        Action.pthread_cancel ThreadId.idTemps, Action.pthread_cancel ThreadId.idClock] ∧
    Action.pthread_cancel ThreadId.idClock
      ∈ [Action.printf "failed to run cmd: %s\n" (some "false"),
        Action.pthread_cancel ThreadId.idTemps, Action.pthread_cancel ThreadId.idClock] ∧
    (∀ id fn a, Action.pthread_create id fn a
      ∉ [Action.printf "failed to run cmd: %s\n" (some "false"),
        Action.pthread_cancel ThreadId.idTemps, Action.pthread_cancel ThreadId.idClock]) ∧
    (∀ c, Action.system c
      ∉ [Action.printf "failed to run cmd: %s\n" (some "false"),
        Action.pthread_cancel ThreadId.idTemps, Action.pthread_cancel ThreadId.idClock])) :=
  ⟨by decide,
    C6_start_workload_cancel_order (fun _ => 256) "montac" ["-c", "false", "-o", "data"]
      [Action.pthread_create ThreadId.idTemps ThreadFn.logTemperatures
          { saveFilename := some "data", logFreq_us := 500000, verb := 1 },
        Action.pthread_create ThreadId.idClock ThreadFn.logClockSpeeds
          { saveFilename := some "data", logFreq_us := 500000, verb := 1 },
        Action.printf "running cmd: %s\n" (some "false")]
      [Action.printf "failed to run cmd: %s\n" (some "false"),
        Action.pthread_cancel ThreadId.idTemps, Action.pthread_cancel ThreadId.idClock]
      (some "false") (by decide)⟩

/-- C7 (the claim fails): on `montac -c true -o data` the collectors are started and the
trace of `main` holds no call of `pthread_join`: the process exits right after the two
calls of `pthread_cancel`. -/
theorem C7_counterexample :
    Action.pthread_create ThreadId.idTemps ThreadFn.logTemperatures
        { saveFilename := some "data", logFreq_us := 500000, verb := 1 }
      ∈ (main (fun _ => 0) "montac" ["-c", "true", "-o", "data"]).1 ∧
    Action.pthread_join ThreadId.idTemps
      ∉ (main (fun _ => 0) "montac" ["-c", "true", "-o", "data"]).1 ∧
    Action.pthread_join ThreadId.idClock
      ∉ (main (fun _ => 0) "montac" ["-c", "true", "-o", "data"]).1 ∧
    (main (fun _ => 0) "montac" ["-c", "true", "-o", "data"]).1.getLast?
      = some (Action.pthread_cancel ThreadId.idClock) := by
  decide

/-- C7 (amended): in every run of `main` in which a collector has been started, both
collectors have been started, the last two calls before the process exits are the
cancellation of the temperature collector and of the clock collector, no collector is
joined, and the process ends with `exit(EXIT_SUCCESS)`. -/
theorem C7_cancelled_never_joined (sys : Option String → Int) (name : String)
    (argv : List String) (id : ThreadId) (fn : ThreadFn) (a : Args)
    (h : Action.pthread_create id fn a ∈ (main sys name argv).1) :
    (∃ pre, (main sys name argv).1 =
        pre ++ [Action.pthread_cancel ThreadId.idTemps, Action.pthread_cancel ThreadId.idClock] ∧
      Action.pthread_create ThreadId.idTemps ThreadFn.logTemperatures a ∈ pre ∧
      Action.pthread_create ThreadId.idClock ThreadFn.logClockSpeeds a ∈ pre ∧
      ∀ i, Action.pthread_cancel i ∉ pre) ∧
    (∀ i, Action.pthread_join i ∉ (main sys name argv).1) ∧
    (main sys name argv).2 = Outcome.exit EXIT_SUCCESS := by
  rcases main_cases sys name argv with ⟨hq, _⟩ | ⟨cmdStr, args, p, _, _, hm⟩
  · exact absurd (hq _ h) (by simp [Action.quiet])
  · rw [hm] at h ⊢
    have ha : a = args := by
      simp only [supervise] at h
      split_ifs at h <;> simp at h <;> rcases h with ⟨_, _, rfl⟩ | ⟨_, _, rfl⟩ <;> rfl
    subst ha
    refine ⟨⟨[Action.pthread_create ThreadId.idTemps ThreadFn.logTemperatures a,
        Action.pthread_create ThreadId.idClock ThreadFn.logClockSpeeds a]
        ++ (if a.verb > 0 then [Action.printf "running cmd: %s\n" cmdStr] else [])
        ++ [Action.system cmdStr]
        ++ (if sys cmdStr ≠ 0 then [Action.printf "failed to run cmd: %s\n" cmdStr] else []),
        by simp [supervise], by simp, by simp, ?_⟩, ?_, rfl⟩
    · intro i
      split_ifs <;> simp
    · intro i
      simp only [supervise]
      split_ifs <;> simp

/-- The run `montac -c false -o data` in which `system` returns 256 ends with the two
cancellations and joins no collector. -/
theorem C7_cancelled_never_joined_witness :
    Action.pthread_create ThreadId.idClock ThreadFn.logClockSpeeds
        { saveFilename := some "data", logFreq_us := 500000, verb := 1 }
      ∈ (main (fun _ => 256) "montac" ["-c", "false", "-o", "data"]).1 ∧
    ((∃ pre, (main (fun _ => 256) "montac" ["-c", "false", "-o", "data"]).1 =
        pre ++ [Action.pthread_cancel ThreadId.idTemps, Action.pthread_cancel ThreadId.idClock] ∧
      Action.pthread_create ThreadId.idTemps ThreadFn.logTemperatures
        { saveFilename := some "data", logFreq_us := 500000, verb := 1 } ∈ pre ∧
      Action.pthread_create ThreadId.idClock ThreadFn.logClockSpeeds
        { saveFilename := some "data", logFreq_us := 500000, verb := 1 } ∈ pre ∧
      ∀ i, Action.pthread_cancel i ∉ pre) ∧
    (∀ i, Action.pthread_join i ∉ (main (fun _ => 256) "montac" ["-c", "false", "-o", "data"]).1) ∧
    (main (fun _ => 256) "montac" ["-c", "false", "-o", "data"]).2
      = Outcome.exit EXIT_SUCCESS) :=
  ⟨by decide,
    C7_cancelled_never_joined (fun _ => 256) "montac" ["-c", "false", "-o", "data"]
      ThreadId.idClock ThreadFn.logClockSpeeds
      { saveFilename := some "data", logFreq_us := 500000, verb := 1 } (by decide)⟩

theorem sampleAttempts_append (a b : List ThreadAction) :
    sampleAttempts (a ++ b) = sampleAttempts a ++ sampleAttempts b := by
  simp [sampleAttempts]

/-- The sample attempts of the loop entered with `maxLogs = n` are `n` calls of `system`,
one for each status the host returns from the `i`-th on. -/
theorem sampleAttempts_sampleLoop (logStr : String) (usec : Int) (status : Nat → Int) :
    ∀ (n i : Nat), sampleAttempts (sampleLoop logStr usec status n i) =
      (List.range' i n).map (fun k => ThreadAction.system logStr (status k)) := by
  intro n
  induction n with
  | zero =>
    intro i
    rfl
  | succ n ih =>
    intro i
    have hstep : sampleAttempts (sampleLoop logStr usec status (n + 1) i) =
        ThreadAction.system logStr (status i) ::
          sampleAttempts (sampleLoop logStr usec status n (i + 1)) := by
      simp [sampleLoop, sampleAttempts]
    rw [hstep, ih (i + 1), List.range'_succ, List.map_cons]

/-- A collector whose sink opens runs the whole loop and leaves with status 1. -/
theorem collector_open (greeting : String) (bufSize : Nat) (pipeline : String) (host : Host)
    (args : Args) (name : String) (hname : args.saveFilename = some name) (hne : name ≠ "")
    (hopen : host.fopen name = true) :
    (collector greeting bufSize pipeline host args).2 = 1 ∧
    sampleAttempts (collector greeting bufSize pipeline host args).1 =
      (List.range 100000).map
        (fun i => ThreadAction.system (pipeline ++ name) (host.system i)) := by
  have hq : ∀ (c : Prop) [Decidable c] (x : ThreadAction),
      (∀ cmd st, x ≠ ThreadAction.system cmd st) →
        sampleAttempts (if c then [x] else []) = [] := by
    intro c _ x hx
    split_ifs
    · cases x <;> first | rfl | exact absurd rfl (hx _ _)
    · rfl
  unfold collector
  simp only [hname, if_neg hne, hopen, Bool.true_eq_false, if_false]
  refine ⟨trivial, ?_⟩
  rw [sampleAttempts_append, sampleAttempts_append, sampleAttempts_append,
    sampleAttempts_append, sampleAttempts_sampleLoop, hq _ _ (by simp), hq _ _ (by simp),
    List.range_eq_range']
  simp [sampleAttempts]

/-- A collector without an open sink leaves with status 0 and makes no sample attempt. -/
theorem collector_closed (greeting : String) (bufSize : Nat) (pipeline : String)
    (host : Host) (args : Args)
    (h : args.saveFilename = none ∨ args.saveFilename = some "" ∨
      ∃ name, args.saveFilename = some name ∧ host.fopen name = false) :
    (collector greeting bufSize pipeline host args).2 = 0 ∧
    sampleAttempts (collector greeting bufSize pipeline host args).1 = [] := by
  unfold collector
  rcases h with h | h | ⟨name, h, hopen⟩
  · simp only [h]
    refine ⟨trivial, ?_⟩
    split_ifs <;> rfl
  · simp only [h, if_true]
    refine ⟨trivial, ?_⟩
    split_ifs <;> rfl
  · simp only [h, hopen, if_true]
    split_ifs <;> exact ⟨rfl, rfl⟩

/-- C8: each collector whose sink name is a non-empty string that `fopen` opens, and on
which no cancellation is acted, makes exactly 100000 sample attempts, the `i`-th with
whatever status the host returns for it (zero or not), and then leaves with status 1. -/
theorem C8_exhausted_after_100000_attempts (host : Host) (args : Args) (name : String)
    (hname : args.saveFilename = some name) (hne : name ≠ "")
    (hopen : host.fopen name = true) :
    ((logClockSpeeds host args).2 = 1 ∧
      (sampleAttempts (logClockSpeeds host args).1).length = 100000 ∧
      sampleAttempts (logClockSpeeds host args).1 =
        (List.range 100000).map
          (fun i => ThreadAction.system (clockLogStr ++ name) (host.system i))) ∧
    ((logTemperatures host args).2 = 1 ∧
      (sampleAttempts (logTemperatures host args).1).length = 100000 ∧
      sampleAttempts (logTemperatures host args).1 =
        (List.range 100000).map
          (fun i => ThreadAction.system (tempsLogStr ++ name) (host.system i))) := by
  unfold logClockSpeeds logTemperatures
  constructor
  · obtain ⟨h1, h2⟩ := collector_open "saving clock speeds (MHz) every %f s to file... %s\n"
      150 clockLogStr host args name hname hne hopen
    refine ⟨h1, ?_, h2⟩
    rw [h2, List.length_map, List.length_range]
  · obtain ⟨h1, h2⟩ := collector_open "saving temps (degrees C) every %f s to file... %s\n"
      200 tempsLogStr host args name hname hne hopen
    refine ⟨h1, ?_, h2⟩
    rw [h2, List.length_map, List.length_range]

/-- A host on which every sink opens and every second sample fails. -/
theorem C8_exhausted_after_100000_attempts_witness :
    ((logClockSpeeds
        { fopen := fun _ => true, system := fun i => if i % 2 = 0 then 0 else 256 }
        { saveFilename := some "data", logFreq_us := 500000, verb := 1 }).2 = 1 ∧
      (sampleAttempts (logClockSpeeds
        { fopen := fun _ => true, system := fun i => if i % 2 = 0 then 0 else 256 }
        { saveFilename := some "data", logFreq_us := 500000, verb := 1 }).1).length = 100000 ∧
      sampleAttempts (logClockSpeeds
        { fopen := fun _ => true, system := fun i => if i % 2 = 0 then 0 else 256 }
        { saveFilename := some "data", logFreq_us := 500000, verb := 1 }).1 =
        (List.range 100000).map
          (fun i => ThreadAction.system (clockLogStr ++ "data")
            (if i % 2 = 0 then 0 else 256))) ∧
    ((logTemperatures
        { fopen := fun _ => true, system := fun i => if i % 2 = 0 then 0 else 256 }
        { saveFilename := some "data", logFreq_us := 500000, verb := 1 }).2 = 1 ∧
      (sampleAttempts (logTemperatures
        { fopen := fun _ => true, system := fun i => if i % 2 = 0 then 0 else 256 }
        { saveFilename := some "data", logFreq_us := 500000, verb := 1 }).1).length = 100000 ∧
      sampleAttempts (logTemperatures
        { fopen := fun _ => true, system := fun i => if i % 2 = 0 then 0 else 256 }
        { saveFilename := some "data", logFreq_us := 500000, verb := 1 }).1 =
        (List.range 100000).map
          (fun i => ThreadAction.system (tempsLogStr ++ "data")
            (if i % 2 = 0 then 0 else 256))) :=
  C8_exhausted_after_100000_attempts
    { fopen := fun _ => true, system := fun i => if i % 2 = 0 then 0 else 256 }
    { saveFilename := some "data", logFreq_us := 500000, verb := 1 } "data" rfl (by decide) rfl

/-- C9: each collector whose sink name is NULL or empty, or whose sink `fopen` does not
open, leaves with status 0 and makes no sample attempt. -/
theorem C9_no_sink_no_sample (host : Host) (args : Args)
    (h : args.saveFilename = none ∨ args.saveFilename = some "" ∨
      ∃ name, args.saveFilename = some name ∧ host.fopen name = false) :
    ((logClockSpeeds host args).2 = 0 ∧ sampleAttempts (logClockSpeeds host args).1 = []) ∧
    ((logTemperatures host args).2 = 0 ∧ sampleAttempts (logTemperatures host args).1 = []) :=
  ⟨collector_closed _ _ _ host args h, collector_closed _ _ _ host args h⟩

/-- A host on which no sink opens. -/
theorem C9_no_sink_no_sample_witness :
    ((logClockSpeeds { fopen := fun _ => false, system := fun _ => 0 }
        { saveFilename := some "/nonexistent/data", logFreq_us := 500000, verb := 1 }).2 = 0 ∧
      sampleAttempts (logClockSpeeds { fopen := fun _ => false, system := fun _ => 0 }
        { saveFilename := some "/nonexistent/data", logFreq_us := 500000, verb := 1 }).1
        = []) ∧
    ((logTemperatures { fopen := fun _ => false, system := fun _ => 0 }
        { saveFilename := some "/nonexistent/data", logFreq_us := 500000, verb := 1 }).2 = 0 ∧
      sampleAttempts (logTemperatures { fopen := fun _ => false, system := fun _ => 0 }
        { saveFilename := some "/nonexistent/data", logFreq_us := 500000, verb := 1 }).1
        = []) :=
  C9_no_sink_no_sample { fopen := fun _ => false, system := fun _ => 0 }
    { saveFilename := some "/nonexistent/data", logFreq_us := 500000, verb := 1 }
    (Or.inr (Or.inr ⟨"/nonexistent/data", rfl, rfl⟩))

/-- The buffers of `main` and of the collectors hold the strings built from a prefix of
at most 50 bytes, and from any sink name at most 6 bytes longer. -/
theorem buffers_fit (p : String) (hp : strlen p ≤ 50) :
    strlen (saveFilenameTemps p) + 1 ≤ 60 ∧ strlen (saveFilenameClock p) + 1 ≤ 60 ∧
    (∀ sink, sink = p ∨ sink = saveFilenameTemps p ∨ sink = saveFilenameClock p →
      strlen (clockLogStr ++ sink) + 1 ≤ 150 ∧ strlen (tempsLogStr ++ sink) + 1 ≤ 200) := by
  have ht : strlen ".temps" = 6 := by decide
  have hc : strlen ".clock" = 6 := by decide
  have h1 : strlen (saveFilenameTemps p) = strlen p + 6 := by
    rw [saveFilenameTemps, strlen_append, ht]
  have h2 : strlen (saveFilenameClock p) = strlen p + 6 := by
    rw [saveFilenameClock, strlen_append, hc]
  refine ⟨by omega, by omega, ?_⟩
  intro sink hs
  rw [strlen_append, strlen_append, strlen_clockLogStr, strlen_tempsLogStr]
  rcases hs with rfl | rfl | rfl <;> omega

/-- C10: whenever `main` starts a collector, the output prefix is a string of at most 50
bytes, so that `prefix.temps` and `prefix.clock` with their NUL fit the 60 bytes of
`saveFilenameTemps` and `saveFilenameClock`, and the command of each collector (its fixed
text followed by the sink name, be it the prefix or one of the two names built from it)
with its NUL fits the 150 bytes of the clock collector's `logStr` and the 200 bytes of
the temperature collector's. A run whose option loop ends with a longer prefix only
prints and ends with `exit(EXIT_FAILURE)`. -/
theorem C10_no_buffer_overflow (sys : Option String → Int) (name : String)
    (argv : List String) (id : ThreadId) (fn : ThreadFn) (a : Args)
    (h : Action.pthread_create id fn a ∈ (main sys name argv).1) :
    (∃ p, a.saveFilename = some p ∧ strlen p ≤ 50 ∧
      strlen (saveFilenameTemps p) + 1 ≤ 60 ∧ strlen (saveFilenameClock p) + 1 ≤ 60 ∧
      (∀ sink, sink = p ∨ sink = saveFilenameTemps p ∨ sink = saveFilenameClock p →
        strlen (clockLogStr ++ sink) + 1 ≤ 150 ∧ strlen (tempsLogStr ++ sink) + 1 ≤ 200)) ∧
    (∀ (argv1 : List String) (cmdStr : Option String) (args : Args) (tr : List Action)
        (q : String),
      optLoop name (getopt argv1).1 none defaultArgs [] = LoopResult.past cmdStr args tr →
      args.saveFilename = some q → 50 < strlen q →
        (main sys name argv1).2 = Outcome.exit EXIT_FAILURE ∧
        ∀ x ∈ (main sys name argv1).1, x.quiet = true) := by
  constructor
  · rcases main_cases sys name argv with ⟨hq, _⟩ | ⟨cmdStr, args, p, hsf, hlen, hm⟩
    · exact absurd (hq _ h) (by simp [Action.quiet])
    · rw [hm] at h
      have ha : a = args := by
        simp only [supervise] at h
        split_ifs at h <;> simp at h <;> rcases h with ⟨_, _, rfl⟩ | ⟨_, _, rfl⟩ <;> rfl
      subst ha
      exact ⟨p, hsf, hlen, buffers_fit p hlen⟩
  · intro argv1 cmdStr args tr q hloop hsf hlen
    have htr : tr = [] := optLoop_past name _ _ _ _ _ _ _ hloop
    subst htr
    unfold main
    split_ifs with hargv
    · exact ⟨rfl, by simp [Action.quiet]⟩
    · rw [hloop]
      simp only [afterLoop, hsf, if_pos hlen]
      split_ifs with hno
      · refine ⟨rfl, ?_⟩
        intro x hx
        simp only [List.nil_append, List.mem_append, List.mem_map, List.mem_singleton] at hx
        rcases hx with ⟨b, _, rfl⟩ | rfl <;> rfl
      · exact ⟨rfl, by simp [Action.quiet]⟩

/-- The run `montac -c true -o data`, whose prefix has 4 bytes. -/
theorem C10_no_buffer_overflow_witness :
    Action.pthread_create ThreadId.idTemps ThreadFn.logTemperatures
        { saveFilename := some "data", logFreq_us := 500000, verb := 1 }
      ∈ (main (fun _ => 0) "montac" ["-c", "true", "-o", "data"]).1 ∧
    ((∃ p, some "data" = some p ∧ strlen p ≤ 50 ∧
      strlen (saveFilenameTemps p) + 1 ≤ 60 ∧ strlen (saveFilenameClock p) + 1 ≤ 60 ∧
      (∀ sink, sink = p ∨ sink = saveFilenameTemps p ∨ sink = saveFilenameClock p →
        strlen (clockLogStr ++ sink) + 1 ≤ 150 ∧ strlen (tempsLogStr ++ sink) + 1 ≤ 200)) ∧
    (∀ (argv1 : List String) (cmdStr : Option String) (args : Args) (tr : List Action)
        (q : String),
      optLoop "montac" (getopt argv1).1 none defaultArgs [] = LoopResult.past cmdStr args tr →
      args.saveFilename = some q → 50 < strlen q →
        (main (fun _ => 0) "montac" argv1).2 = Outcome.exit EXIT_FAILURE ∧
        ∀ x ∈ (main (fun _ => 0) "montac" argv1).1, x.quiet = true)) :=
  ⟨by decide,
    C10_no_buffer_overflow (fun _ => 0) "montac" ["-c", "true", "-o", "data"]
      ThreadId.idTemps ThreadFn.logTemperatures
      { saveFilename := some "data", logFreq_us := 500000, verb := 1 } (by decide)⟩

/-- A prefix of 51 bytes is rejected by the length check of `main`, before any collector
is started. -/
theorem main_rejects_51_bytes :
    main (fun _ => 0) "montac"
        ["-c", "true", "-o", "123456789012345678901234567890123456789012345678901"] =
      ([Action.printf "saveFilename too long: 50 character limit\n" none],
        Outcome.exit EXIT_FAILURE) := by
  decide

end Montac
